import Mathlib

/-!
Verification of `slo_generator/backends/graphite.py` (GraphiteBackend /
GraphiteClient) against its natural-language specification.

The Python code is shallowly embedded: JSON values (the decoded API
responses and configuration dictionaries) become an inductive `JValue`;
Python subscripting, iteration, `len`, comparison and truthiness become
explicit partial operations returning `Except PyErr`, so that the
`try/except` blocks of the source can be reproduced exactly, including
which exception classes are caught and which propagate to the caller.
Numbers are embedded as `Int` (the source only compares, filters and sums
sample values; no float-specific behaviour is exercised by the claims).
-/

namespace Graphite

/-- Python exception classes that the embedded code can raise.
`unboundLocalError` models reading a local variable before assignment. -/
inductive PyErr where
  | keyError
  | indexError
  | typeError
  | zeroDivisionError
  | unboundLocalError
  | attributeError
  | valueError
deriving DecidableEq, Repr

/-- Decoded JSON values (plus Python booleans, which JSON also has).
Sample values in Graphite responses are numbers or `null`. -/
inductive JValue where
  | null
  | bool (b : Bool)
  | num (n : Int)
  | str (s : String)
  | arr (xs : List JValue)
  | obj (fields : List (String × JValue))
deriving Repr

namespace JValue

/-- Python `len(v)`: defined for sequences and mappings, `TypeError`
otherwise. -/
def pyLen : JValue → Except PyErr Nat
  | .arr xs => .ok xs.length
  | .obj fs => .ok fs.length
  | .str s => .ok s.length
  | _ => .error .typeError

/-- Python `v[i]` for a non-negative integer index `i`:
list indexing (IndexError when out of range), string indexing (yields a
one-character string), dict lookup with an integer key (KeyError, since
all keys in the embedded objects are strings), TypeError otherwise. -/
def pyGetIndex (v : JValue) (i : Nat) : Except PyErr JValue :=
  match v with
  | .arr xs =>
    match xs.get? i with
    | some x => .ok x
    | none => .error .indexError
  | .str s =>
    match s.data.get? i with
    | some c => .ok (.str (String.mk [c]))
    | none => .error .indexError
  | .obj _ => .error .keyError
  | _ => .error .typeError

/-- Python `v[k]` for a string key `k`: dict lookup (KeyError when the key
is missing), TypeError on non-dicts. -/
def pyGetKey (v : JValue) (k : String) : Except PyErr JValue :=
  match v with
  | .obj fs =>
    match fs.lookup k with
    | some x => .ok x
    | none => .error .keyError
  | _ => .error .typeError

/-- Python `v.get(k, d)` for dicts; AttributeError on non-dicts. -/
def pyDictGet (v : JValue) (k : String) (d : JValue) : Except PyErr JValue :=
  match v with
  | .obj fs => .ok ((fs.lookup k).getD d)
  | _ => .error .attributeError

/-- Python iteration `for x in v`: list elements, dict keys, string
characters (as one-character strings); TypeError on non-iterables. -/
def pyIter : JValue → Except PyErr (List JValue)
  | .arr xs => .ok xs
  | .obj fs => .ok (fs.map (fun p => .str p.1))
  | .str s => .ok (s.data.map (fun c => .str (String.mk [c])))
  | _ => .error .typeError

/-- Numeric view of a value: Python treats `bool` as an integer in
arithmetic and comparisons. -/
def pyNum? : JValue → Option Int
  | .num n => some n
  | .bool b => some (if b then 1 else 0)
  | _ => none

/-- Python `a <= b`: numeric comparison (bools count as 0/1), string
comparison between two strings, TypeError on other mixes. -/
def pyLe (a b : JValue) : Except PyErr Bool :=
  match pyNum? a, pyNum? b with
  | some x, some y => .ok (decide (x ≤ y))
  | _, _ =>
    match a, b with
    | .str s, .str t => .ok (decide (s ≤ t))
    | _, _ => .error .typeError

/-- Python `a > b` against an integer constant. -/
def pyGtInt (a : JValue) (b : Int) : Except PyErr Bool :=
  match pyNum? a with
  | some x => .ok (decide (x > b))
  | none => .error .typeError

/-- Python `v is None`. -/
def isNull : JValue → Bool
  | .null => true
  | _ => false

/-- Python truthiness, as used by `if good_below_threshold:`. -/
def pyTruthy : JValue → Bool
  | .null => false
  | .bool b => b
  | .num n => decide (n ≠ 0)
  | .str s => decide (s ≠ "")
  | .arr [] => false
  | .arr (_ :: _) => true
  | .obj [] => false
  | .obj (_ :: _) => true

end JValue

/-- Modelled from the spec: `NO_DATA` is the sentinel constant imported
from `slo_generator.constants` (a module of this repository that is not
under `src/`); the spec describes it as a "sentinel value signaling an
empty/unusable measurement window". Its concrete value is irrelevant to
the claims, which only compare results against the same constant. -/
def NO_DATA : Int := -1

open JValue

/-- Loop body of the `for point in datapoints` loop of
`GraphiteBackend.count_threshold`:
`value = point[0]`; skip when `value is None`; otherwise append `value`
to the `below` bucket when `value <= threshold`, else to `above`. -/
def bucketStep (threshold : JValue) (ba : List JValue × List JValue)
    (point : JValue) : Except PyErr (List JValue × List JValue) := do
  let value ← pyGetIndex point 0
  if isNull value then
    pure ba
  else do
    let le ← pyLe value threshold
    if le then pure (ba.1 ++ [value], ba.2) else pure (ba.1, ba.2 ++ [value])

/-- One iteration of the `while (target < x)` loop of `count_threshold`:
`datapoints = response[target]['datapoints']`, then `below = []`,
`above = []` (note: the buckets are re-initialised on every iteration),
then the inner for-loop over the datapoints. -/
def seriesBuckets (threshold : JValue) (response : JValue) (target : Nat) :
    Except PyErr (List JValue × List JValue) := do
  let series ← pyGetIndex response target
  let datapoints ← pyGetKey series "datapoints"
  let pts ← pyIter datapoints
  pts.foldlM (bucketStep threshold) ([], [])

/-- Body of the `try:` block of `GraphiteBackend.count_threshold`.
The accumulator of the while loop is `none` as long as the local
variables `below`/`above` have never been assigned; reading them after a
loop that ran zero times raises `UnboundLocalError` (which the `except`
clause of the source does not catch). -/
def count_thresholdBody (response threshold good_below_threshold : JValue) :
    Except PyErr (Int × Int) := do
  let x ← pyLen response
  let st ← (List.range x).foldlM
    (fun (_ : Option (List JValue × List JValue)) target => do
      let ba ← seriesBuckets threshold response target
      pure (some ba))
    (none : Option (List JValue × List JValue))
  match st with
  | none => Except.error .unboundLocalError
  | some (below, above) =>
    if pyTruthy good_below_threshold then
      pure ((below.length : Int), (above.length : Int))
    else
      pure ((above.length : Int), (below.length : Int))

/-- The exception classes caught by `count_threshold`:
`except (IndexError, KeyError, ZeroDivisionError)`. -/
def caughtByCountThreshold : PyErr → Bool
  | .indexError => true
  | .keyError => true
  | .zeroDivisionError => true
  | _ => false

/-- `GraphiteBackend.count_threshold(response, threshold,
good_below_threshold=True)`: runs the try-block body and converts the
caught exception classes into the sentinel pair `(NO_DATA, NO_DATA)`;
any other exception propagates to the caller. -/
def count_threshold (response threshold : JValue)
    (good_below_threshold : JValue := .bool true) : Except PyErr (Int × Int) :=
  match count_thresholdBody response threshold good_below_threshold with
  | .ok r => .ok r
  | .error e =>
    if caughtByCountThreshold e then .ok (NO_DATA, NO_DATA) else .error e

/-- Body of the `try:` block of `GraphiteBackend.count`:
`datapoints = response['result'][0]['data']`, then for each `point` the
list comprehension keeps the entries of `point['values']` that are not
`None` and are `> 0` (short-circuit: `None` is skipped before the
comparison), extends `values` with them, and finally returns their sum.
The comprehension's filter is `countValueStep`; a non-`None` entry that
is not a number raises `TypeError` at the `> 0` comparison. -/
def countValueStep (acc2 : List Int) (p : JValue) : Except PyErr (List Int) :=
  if isNull p then pure acc2
  else do
    let gt ← pyGtInt p 0
    pure (if gt then acc2 ++ [(pyNum? p).getD 0] else acc2)

/-- One iteration of the `for point in datapoints` loop of `count`:
the comprehension over `point['values']` followed by
`values.extend(point_values)`. -/
def countPointStep (acc : List Int) (point : JValue) : Except PyErr (List Int) := do
  let vs ← pyGetKey point "values"
  let inner ← pyIter vs
  let pv ← inner.foldlM countValueStep []
  pure (acc ++ pv)

def countBody (response : JValue) : Except PyErr Int := do
  let r ← pyGetKey response "result"
  let first ← pyGetIndex r 0
  let datapoints ← pyGetKey first "data"
  let pts ← pyIter datapoints
  let values ← pts.foldlM countPointStep []
  pure values.sum

/-- The exception classes caught by `count`: `except (IndexError, KeyError)`. -/
def caughtByCount : PyErr → Bool
  | .indexError => true
  | .keyError => true
  | _ => false

/-- `GraphiteBackend.count(response)`: runs the try-block body and
converts `IndexError`/`KeyError` into the sentinel `NO_DATA`; any other
exception propagates. -/
def count (response : JValue) : Except PyErr Int :=
  match countBody response with
  | .ok r => .ok r
  | .error e => if caughtByCount e then .ok NO_DATA else .error e

/-- `GraphiteBackend.threshold(timestamp, window, slo_config)`.
The network call `self.query(...)` is abstracted by the function `q`
mapping `(start, end, metric)` to the decoded response; everything else
follows the source line by line: `conf = slo_config['backend']`,
`measurement = conf['measurement']`, `start = timestamp - window`,
`end = timestamp`, the three measurement lookups (with
`.get('good_below_threshold', True)` for the direction flag), then the
delegation to `count_threshold`. Exceptions raised by the dictionary
lookups propagate (there is no `try` block in `threshold`). -/
def threshold (q : Int → Int → JValue → JValue) (timestamp window : Int)
    (slo_config : JValue) : Except PyErr (Int × Int) := do
  let conf ← pyGetKey slo_config "backend"
  let measurement ← pyGetKey conf "measurement"
  let start := timestamp - window
  let e := timestamp
  let metric ← pyGetKey measurement "metric"
  let thr ← pyGetKey measurement "threshold"
  let gbt ← pyDictGet measurement "good_below_threshold" (.bool true)
  let response := q start e metric
  count_threshold response thr gbt

/-! ### Time formatting (`datetime.fromtimestamp(t).strftime("%H:%M_%Y%m%d")`)

`datetime.fromtimestamp` converts a UNIX timestamp to a civil date-time
(modelled here at UTC; the conversion uses the process's local timezone,
but the claims under verification only concern the *format* of the
result, which does not depend on the zone offset). The Gregorian
date computation uses the standard days-to-civil algorithm.
`datetime` caps the representable year at 9999, raising an error for
timestamps at or beyond year 10000. -/

/-- Days-since-epoch to Gregorian `(year, month, day)` (valid for all
`days ≥ 0`, i.e. dates from 1970-01-01 on). -/
def civilFromDays (days : Nat) : Nat × Nat × Nat :=
  let z := days + 719468
  let era := z / 146097
  let doe := z % 146097
  let yoe := (doe - doe / 1460 + doe / 36524 - doe / 146096) / 365
  let y := yoe + era * 400
  let doy := doe - (365 * yoe + yoe / 4 - yoe / 100)
  let mp := (5 * doy + 2) / 153
  let d := doy - (153 * mp + 2) / 5 + 1
  let m := if mp < 10 then mp + 3 else mp - 9
  (if m ≤ 2 then y + 1 else y, m, d)

/-- The decimal digit character for `n % 10`. -/
def digitChar (n : Nat) : Char := Char.ofNat (48 + n % 10)

/-- Two-digit zero-padded decimal rendering (exact for `n ≤ 99`, which
covers every field it is applied to: hours, minutes, months, days). -/
def pad2 (n : Nat) : List Char := [digitChar (n / 10), digitChar n]

/-- Four-digit decimal rendering (exact for `n ≤ 9999`; the year of any
non-negative timestamp accepted by `datetime` lies in `[1970, 9999]`). -/
def pad4 (n : Nat) : List Char :=
  [digitChar (n / 1000), digitChar (n / 100), digitChar (n / 10), digitChar n]

/-- First UNIX timestamp of year 10000 (UTC); `datetime.fromtimestamp`
raises for timestamps from here on (year out of range). -/
def MAX_TIMESTAMP : Nat := 253402300800

/-- `datetime.fromtimestamp(t).strftime("%H:%M_%Y%m%d")` for a
non-negative UNIX timestamp `t`, at UTC. -/
def strftime_HM_YMD (t : Nat) : Except PyErr String :=
  if t < MAX_TIMESTAMP then
    let days := t / 86400
    let secs := t % 86400
    let hour := secs / 3600
    let minute := secs % 3600 / 60
    let ymd := civilFromDays days
    .ok (String.mk (pad2 hour ++ [':'] ++ pad2 minute ++ ['_'] ++
          pad4 ymd.1 ++ pad2 ymd.2.1 ++ pad2 ymd.2.2))
  else .error .valueError

/-- The `params` dictionary built by `GraphiteBackend.query`:
`{'from': strftime(start), 'until': strftime(end), 'format': 'json'}`
(values wrapped in `Option` because `GraphiteClient.request` filters out
`None`-valued parameters). -/
def queryParams (start e : Nat) : Except PyErr (List (String × Option String)) := do
  let f ← strftime_HM_YMD start
  let u ← strftime_HM_YMD e
  pure [("from", some f), ("until", some u), ("format", some "json")]

/-! ### URL construction (`GraphiteClient`) -/

/-- Python `s.rstrip('/')`: remove every trailing `'/'`. Used by
`GraphiteClient.__init__` on `api_url`. -/
def rstripSlash (s : String) : String :=
  String.mk ((s.data.reverse.dropWhile (fun c => c == '/')).reverse)

/-- Python `"&".flatten(strings)`. -/
def joinAmp : List String → String
  | [] => ""
  | [x] => x
  | x :: y :: xs => x ++ "&" ++ joinAmp (y :: xs)

/-- The URL built by `GraphiteClient.request`:
`f'{self.url}/{endpoint}={metric}'` followed by
`'&' + "&".flatten(f'{k}={v}' for k, v in params.items() if v is not None)`. -/
def request_url (self_url endpoint metric : String)
    (params : List (String × Option String)) : String :=
  self_url ++ "/" ++ endpoint ++ "=" ++ metric ++ "&" ++
    joinAmp (params.filterMap (fun p => p.2.map (fun v => p.1 ++ "=" ++ v)))

/-- The full request URL produced by `GraphiteBackend.query` through
`GraphiteClient` (`__init__` strips the trailing slashes of `api_url`;
`query` passes endpoint `'render?target'` and the `from`/`until`/`format`
parameters). -/
def queryUrl (api_url metric : String) (start e : Nat) : Except PyErr String := do
  let ps ← queryParams start e
  pure (request_url (rstripSlash api_url) "render?target" metric ps)

/-! ### Shapes of well-formed responses, for stating the claims -/

/-- Embedding of a sample value (`null` or a number) as JSON. -/
def sampleToJ : Option Int → JValue
  | none => .null
  | some n => .num n

/-- The positive entries of a list of optional sample values: exactly the
values that are present and strictly greater than zero. -/
def positives (vs : List (Option Int)) : List Int :=
  (vs.filterMap id).filter (fun n => decide (0 < n))

/-- A response of the dict shape `count` parses:
`{'result': [{'data': [{'values': [...]}, ...]}]}`, with one point object
per inner list of sample values. -/
def mkCountResponse (ptss : List (List (Option Int))) : JValue :=
  let points : List JValue :=
    ptss.map (fun vs => .obj [("values", .arr (vs.map sampleToJ))])
  .obj [("result", .arr [.obj [("data", .arr points)]])]

/-- The sample value carried at index 0 of a `[value, timestamp]` data
point, when the point has the well-formed shape: `some (some n)` for a
numeric value, `some none` for a null value, `none` for a malformed
point. -/
def sampleVal? : JValue → Option (Option Int)
  | .arr (.num n :: _) => some (some n)
  | .arr (.null :: _) => some none
  | _ => none

/-- The `datapoints` list of a series object (empty for other shapes). -/
def seriesPoints : JValue → List JValue
  | .obj fs =>
    match fs.lookup "datapoints" with
    | some (.arr pts) => pts
    | _ => []
  | _ => []

/-- A well-formed series: a dict with a `datapoints` list whose entries
are `[value, timestamp]` pairs with a numeric or null value. -/
def wellFormedSeries (s : JValue) : Bool :=
  match s with
  | .obj fs =>
    match fs.lookup "datapoints" with
    | some (.arr pts) => pts.all (fun p => (sampleVal? p).isSome)
    | _ => false
  | _ => false

/-- The non-null sample values of a list of data points, in order. -/
def ptsVals (pts : List JValue) : List Int :=
  pts.filterMap (fun p => (sampleVal? p).getD none)

/-- The non-null sample values of a series. -/
def seriesVals (s : JValue) : List Int := ptsVals (seriesPoints s)

/-- The non-null sample values of a series that are at most `t`. -/
def belowVals (t : Int) (s : JValue) : List Int :=
  (seriesVals s).filter (fun n => decide (n ≤ t))

/-- The non-null sample values of a series that are strictly above `t`. -/
def aboveVals (t : Int) (s : JValue) : List Int :=
  (seriesVals s).filter (fun n => decide (t < n))

/-! ### Predicates on the formatted output, for stating the claims -/

/-- A decimal digit character. -/
def isDigitChar (c : Char) : Bool := decide (48 ≤ c.toNat) && decide (c.toNat ≤ 57)

/-- The documented Graphite time pattern `HH:MM_YYYYMMDD`: two digits, a
colon, two digits, an underscore, and eight digits (four-digit year,
two-digit month, two-digit day). -/
def matchesGraphiteTime (s : String) : Bool :=
  match s.data with
  | [h1, h2, c, m1, m2, u, y1, y2, y3, y4, o1, o2, d1, d2] =>
    isDigitChar h1 && isDigitChar h2 && (c == ':') &&
    isDigitChar m1 && isDigitChar m2 && (u == '_') &&
    isDigitChar y1 && isDigitChar y2 && isDigitChar y3 && isDigitChar y4 &&
    isDigitChar o1 && isDigitChar o2 && isDigitChar d1 && isDigitChar d2
  | _ => false

/-- Whether a character sequence contains two adjacent slashes. -/
def hasDoubleSlash : List Char → Bool
  | c1 :: c2 :: rest => (c1 == '/' && c2 == '/') || hasDoubleSlash (c2 :: rest)
  | _ => false

end Graphite

/-! ## Claims -/

open Graphite JValue

/-- Helper: binding a successful `Except` computation applies the
continuation. -/
theorem exceptOk_bind {ε α β : Type} (a : α) (f : α → Except ε β) :
    (Except.ok a >>= f : Except ε β) = f a := rfl

/-- Helper: `pure` for the `Except` monad is `Except.ok`. -/
theorem exceptPure_eq {ε α : Type} (a : α) :
    (pure a : Except ε α) = Except.ok a := rfl

/-- Helper: binding a failed `Except` computation propagates the error. -/
theorem exceptError_bind {ε α β : Type} (e : ε) (f : α → Except ε β) :
    (Except.error e >>= f : Except ε β) = Except.error e := rfl

/-- Helper: mapping over a successful `Except` computation. -/
theorem exceptOk_map {ε α β : Type} (a : α) (f : α → β) :
    (f <$> (Except.ok a : Except ε α)) = Except.ok (f a) := rfl

/-- Helper: mapping over a failed `Except` computation. -/
theorem exceptError_map {ε α β : Type} (e : ε) (f : α → β) :
    (f <$> (Except.error e : Except ε α)) = Except.error e := rfl

/-- C4: for a response with a single series whose samples are
`[10, null, 60, 50]` and threshold `50`, `count_threshold` returns
`good = 2, bad = 1` when `good_below_threshold` is true, and
`good = 1, bad = 2` when it is false. -/
theorem claim_C4_sample_scenario :
    count_threshold
      (.arr [.obj [("datapoints", .arr [.arr [.num 10, .num 1612257900],
        .arr [.null, .num 1612258200], .arr [.num 60, .num 1612258500],
        .arr [.num 50, .num 1612258800]])]])
      (.num 50) (.bool true) = .ok (2, 1)
    ∧ count_threshold
      (.arr [.obj [("datapoints", .arr [.arr [.num 10, .num 1612257900],
        .arr [.null, .num 1612258200], .arr [.num 60, .num 1612258500],
        .arr [.num 50, .num 1612258800]])]])
      (.num 50) (.bool false) = .ok (1, 2) := ⟨rfl, rfl⟩

/-- C1 (code bug): `count_threshold` does return the sentinel pair for
structurally invalid responses whose failure raises
`IndexError`/`KeyError` (a series without a `'datapoints'` key, a sample
with no index 0), but on an *empty* response (no series) the local
variables `below`/`above` — initialised inside the while loop, which then
runs zero times — are read unassigned, raising `UnboundLocalError`, which
the `except (IndexError, KeyError, ZeroDivisionError)` clause does not
catch: the exception propagates to the caller instead of yielding
`(NO_DATA, NO_DATA)`. -/
theorem claim_C1_empty_response_raises :
    count_threshold (.arr []) (.num 50) (.bool true)
      = .error .unboundLocalError
    ∧ count_threshold (.obj []) (.num 50) (.bool true)
      = .error .unboundLocalError
    ∧ count_threshold (.arr [.obj []]) (.num 50) (.bool true)
      = .ok (NO_DATA, NO_DATA)
    ∧ count_threshold (.arr [.obj [("datapoints", .arr [.arr []])]])
        (.num 50) (.bool true) = .ok (NO_DATA, NO_DATA) :=
  ⟨rfl, rfl, rfl, rfl⟩

/-- C2 (code bug): the `below`/`above` buckets are re-initialised on every
iteration of the while loop over the series, so the returned counts
reflect only the *last* series, not all of them. For two series with
samples `[10, 60]` (first) and `[70]` (second) and threshold `50`, the
counts across all series would be `(1, 2)`, but the code returns `(0, 1)`
— the counts of the second series alone. -/
theorem claim_C2_counts_last_series_only :
    count_threshold
      (.arr [.obj [("datapoints", .arr [.arr [.num 10, .num 1612257900],
          .arr [.num 60, .num 1612258200]])],
        .obj [("datapoints", .arr [.arr [.num 70, .num 1612258500]])]])
      (.num 50) (.bool true) = .ok (0, 1)
    ∧ ((0 : Int), (1 : Int)) ≠ ((1 : Int), (2 : Int)) :=
  ⟨rfl, by decide⟩

/-- C6 (counterexample): `count` applied to the empty *list* response
raises `TypeError` (subscripting a list with the string `'result'`),
which is not among the caught exception classes, so the sentinel is not
returned and the error propagates. -/
theorem claim_C6_counterexample_list_response :
    count (.arr []) = .error .typeError
    ∧ count (.arr []) ≠ .ok NO_DATA :=
  ⟨rfl, fun h => Except.noConfusion h⟩

/-- C6 (amended): `count` returns the sentinel `NO_DATA` for dict-shaped
responses whose structural failure raises `KeyError` or `IndexError` —
a missing `'result'` key, an empty `'result'` list, a first result
without a `'data'` key, or a data point without a `'values'` key; a
response that is not a dict at all (such as the empty list) instead
raises `TypeError`, which propagates to the caller. -/
theorem claim_C6_count_sentinel_on_structural_failure :
    (∀ fs : List (String × JValue), fs.lookup "result" = none →
      count (.obj fs) = .ok NO_DATA)
    ∧ count (.obj [("result", .arr [])]) = .ok NO_DATA
    ∧ count (.obj [("result", .arr [.obj []])]) = .ok NO_DATA
    ∧ count (.obj [("result", .arr [.obj [("data", .arr [.obj []])]])])
        = .ok NO_DATA := by
  refine ⟨fun fs h => ?_, rfl, rfl, rfl⟩
  simp only [count, countBody, pyGetKey, h]
  rfl

/-- C3: a non-null sample value exactly equal to the threshold is put in
the "below" bucket (hence counted as good when `good_below_threshold` is
true), and a null sample value is put in neither bucket: first at the
level of the per-sample classification (`bucketStep`), then through
`count_threshold` on a single-series response. -/
theorem claim_C3_equal_value_below_null_skipped :
    ∀ (t : Int) (ba : List JValue × List JValue) (ts ts2 : JValue),
    bucketStep (.num t) ba (.arr [.num t, ts]) = .ok (ba.1 ++ [.num t], ba.2)
    ∧ bucketStep (.num t) ba (.arr [.null, ts2]) = .ok ba
    ∧ count_threshold (.arr [.obj [("datapoints", .arr [.arr [.num t, ts]])]])
        (.num t) (.bool true) = .ok (1, 0)
    ∧ count_threshold (.arr [.obj [("datapoints", .arr [.arr [.null, ts2]])]])
        (.num t) (.bool true) = .ok (0, 0) := by
  intro t ba ts ts2
  refine ⟨?_, rfl, ?_, rfl⟩
  · simp [bucketStep, pyGetIndex, pyLe, pyNum?, isNull, exceptOk_bind, exceptPure_eq]
  · simp [count_threshold, count_thresholdBody, seriesBuckets, bucketStep,
      pyGetIndex, pyGetKey, pyIter, pyLen, pyLe, pyNum?, isNull, pyTruthy,
      List.range_succ, exceptOk_bind, exceptOk_map, exceptPure_eq]

/-- C7: `threshold` queries the window `[timestamp - window, timestamp]`
for the configured metric and returns exactly `count_threshold` of the
response with the configured threshold and direction flag, the flag
defaulting to `True` when absent from the measurement config. -/
theorem claim_C7_threshold_delegates :
    ∀ (q : Int → Int → JValue → JValue) (ts w : Int) (m thr g : JValue),
    threshold q ts w (.obj [("backend", .obj [("measurement",
        .obj [("metric", m), ("threshold", thr),
          ("good_below_threshold", g)])])])
      = count_threshold (q (ts - w) ts m) thr g
    ∧ threshold q ts w (.obj [("backend", .obj [("measurement",
        .obj [("metric", m), ("threshold", thr)])])])
      = count_threshold (q (ts - w) ts m) thr (.bool true) :=
  fun _ _ _ _ _ _ => ⟨rfl, rfl⟩

/-- Helper: the inner comprehension of `count` over a list of numeric or
null entries collects exactly the strictly positive values. -/
theorem countValue_fold (vs : List (Option Int)) :
    ∀ acc : List Int,
    (vs.map sampleToJ).foldlM countValueStep acc = Except.ok (acc ++ positives vs) := by
  induction vs with
  | nil => intro acc; simp [positives, exceptPure_eq]
  | cons v vs ih =>
    intro acc
    cases v with
    | none =>
      simp only [List.map_cons, List.foldlM_cons, sampleToJ, countValueStep,
        isNull, if_pos, exceptPure_eq, exceptOk_bind, ih, positives,
        List.filterMap_cons]
      rfl
    | some n =>
      by_cases h : 0 < n
      · simp [List.foldlM_cons, sampleToJ, countValueStep, isNull, pyGtInt,
          pyNum?, h, exceptPure_eq, exceptOk_bind, ih, positives,
          List.filterMap_cons, List.filter_cons]
      · simp [List.foldlM_cons, sampleToJ, countValueStep, isNull, pyGtInt,
          pyNum?, h, exceptPure_eq, exceptOk_bind, ih, positives,
          List.filterMap_cons, List.filter_cons]

/-- Helper: the outer loop of `count` over well-formed point objects
accumulates the positive values of every point, in order. -/
theorem countPoint_fold (ptss : List (List (Option Int))) :
    ∀ acc : List Int,
    ((ptss.map (fun vs => JValue.obj [("values", .arr (vs.map sampleToJ))])).foldlM
        countPointStep acc)
      = Except.ok (acc ++ (ptss.map positives).flatten) := by
  induction ptss with
  | nil => intro acc; simp [exceptPure_eq]
  | cons vs ptss ih =>
    intro acc
    simp [List.foldlM_cons, countPointStep, pyGetKey, pyIter,
      exceptOk_bind, exceptPure_eq, countValue_fold, ih]

/-- C5: for every well-formed response, `count` returns the sum of
exactly the sample values that are present (non-null) and strictly
positive, ignoring zeros, negatives and nulls; in particular a single
point with values `[5, -3, 0, null, 7]` yields `12`. -/
theorem claim_C5_count_sums_positive_values :
    ∀ ptss : List (List (Option Int)),
    count (mkCountResponse ptss) = .ok ((ptss.map positives).flatten.sum)
    ∧ count (mkCountResponse [[some 5, some (-3), some 0, none, some 7]])
        = .ok 12 := by
  intro ptss
  refine ⟨?_, rfl⟩
  simp [count, countBody, mkCountResponse, pyGetKey, pyGetIndex, pyIter,
    exceptOk_bind, exceptPure_eq, countPoint_fold]

/-- Helper: a data point with a well-formed sample is a list whose head
is null or a number. -/
theorem sampleVal_shape (p : JValue) (h : (sampleVal? p).isSome = true) :
    (∃ rest, p = .arr (.null :: rest))
    ∨ (∃ n rest, p = .arr (.num n :: rest)) := by
  rcases p with _ | b' | n' | s' | xs | fs
  · exact absurd h (by simp [sampleVal?])
  · exact absurd h (by simp [sampleVal?])
  · exact absurd h (by simp [sampleVal?])
  · exact absurd h (by simp [sampleVal?])
  · rcases xs with _ | ⟨v, rest⟩
    · exact absurd h (by simp [sampleVal?])
    · rcases v with _ | b' | n' | s' | xs' | fs'
      · exact Or.inl ⟨rest, rfl⟩
      · exact absurd h (by simp [sampleVal?])
      · exact Or.inr ⟨n', rest, rfl⟩
      · exact absurd h (by simp [sampleVal?])
      · exact absurd h (by simp [sampleVal?])
      · exact absurd h (by simp [sampleVal?])
  · exact absurd h (by simp [sampleVal?])

/-- Helper: a well-formed series is a dict whose `datapoints` entry is a
list of well-formed data points. -/
theorem wellFormedSeries_shape (s : JValue) (h : wellFormedSeries s = true) :
    ∃ fs pts, s = .obj fs ∧ fs.lookup "datapoints" = some (.arr pts)
      ∧ pts.all (fun p => (sampleVal? p).isSome) = true := by
  rcases s with _ | b' | n' | s' | xs | fs
  iterate 5 exact absurd h (by simp [wellFormedSeries])
  replace h : (match fs.lookup "datapoints" with
      | some (JValue.arr pts) => pts.all (fun p => (sampleVal? p).isSome)
      | _ => false) = true := h
  rcases hdp : fs.lookup "datapoints" with _ | v
  · rw [hdp] at h
    exact absurd h (by simp)
  · rw [hdp] at h
    rcases v with _ | b' | n' | s' | pts | fs'
    · exact absurd h (by simp)
    · exact absurd h (by simp)
    · exact absurd h (by simp)
    · exact absurd h (by simp)
    · exact ⟨fs, pts, rfl, hdp, h⟩
    · exact absurd h (by simp)

/-- Helper: over a list of well-formed data points, the inner for-loop of
`count_threshold` extends the two buckets with exactly the non-null
values at most the threshold and the non-null values above it. -/
theorem bucket_fold (t : Int) (pts : List JValue) :
    pts.all (fun p => (sampleVal? p).isSome) = true →
    ∀ b a : List JValue,
    pts.foldlM (bucketStep (.num t)) (b, a)
      = Except.ok
          (b ++ ((ptsVals pts).filter (fun n => decide (n ≤ t))).map JValue.num,
           a ++ ((ptsVals pts).filter (fun n => decide (t < n))).map JValue.num) := by
  induction pts with
  | nil => intro _ b a; simp [ptsVals, exceptPure_eq]
  | cons p pts ih =>
    intro hall b a
    rw [List.all_cons, Bool.and_eq_true] at hall
    obtain ⟨hp, hpts⟩ := hall
    rcases sampleVal_shape p hp with ⟨rest, hP⟩ | ⟨n, rest, hP⟩ <;> subst hP
    · -- null value: the sample is skipped
      have hstep : bucketStep (.num t) (b, a) (.arr (.null :: rest))
          = Except.ok (b, a) := rfl
      rw [List.foldlM_cons, hstep, exceptOk_bind, ih hpts b a]
      simp [ptsVals, sampleVal?, List.filterMap_cons]
    · -- numeric value: classified against the threshold
      have hstep : bucketStep (.num t) (b, a) (.arr (.num n :: rest))
          = if decide (n ≤ t) = true
              then Except.ok (b ++ [JValue.num n], a)
              else Except.ok (b, a ++ [JValue.num n]) := rfl
      rw [List.foldlM_cons, hstep]
      by_cases h : n ≤ t
      · have h2 : ¬ t < n := not_lt.2 h
        rw [if_pos (by simpa using h), exceptOk_bind,
          ih hpts (b ++ [JValue.num n]) a]
        simp [ptsVals, sampleVal?, List.filterMap_cons, List.filter_cons, h, h2]
      · have h2 : t < n := not_le.1 h
        rw [if_neg (by simpa using h), exceptOk_bind,
          ih hpts b (a ++ [JValue.num n])]
        simp [ptsVals, sampleVal?, List.filterMap_cons, List.filter_cons, h, h2]

/-- Helper: the buckets computed by one iteration of the while loop of
`count_threshold` on a well-formed series are the below/above value lists
of that series. -/
theorem seriesBuckets_wf (t : Int) (l : List JValue) (k : Nat) (s : JValue)
    (hget : l.get? k = some s) (hwf : wellFormedSeries s = true) :
    seriesBuckets (.num t) (.arr l) k
      = Except.ok ((belowVals t s).map JValue.num, (aboveVals t s).map JValue.num) := by
  obtain ⟨fs, pts, hs, hdp, hall⟩ := wellFormedSeries_shape s hwf
  subst hs
  have h1 : pyGetIndex (JValue.arr l) k = Except.ok (JValue.obj fs) := by
    have hred : pyGetIndex (JValue.arr l) k
        = (match l.get? k with
           | some x => Except.ok x
           | none => Except.error PyErr.indexError) := rfl
    rw [hred, hget]
  have h2 : pyGetKey (JValue.obj fs) "datapoints" = Except.ok (JValue.arr pts) := by
    have hred : pyGetKey (JValue.obj fs) "datapoints"
        = (match fs.lookup "datapoints" with
           | some x => Except.ok x
           | none => Except.error PyErr.keyError) := rfl
    rw [hred, hdp]
  simp only [seriesBuckets, h1, exceptOk_bind, h2, pyIter]
  rw [bucket_fold t pts hall [] []]
  simp [belowVals, aboveVals, seriesVals, seriesPoints, hdp]

/-- Helper: the while loop of `count_threshold` over the tail indices
`[k, k+m)` of a list of well-formed series ends with the buckets of the
last series (or the incoming accumulator when it runs zero times). -/
theorem whileLoop_fold (t : Int) (l : List JValue)
    (hl : ∀ s ∈ l, wellFormedSeries s = true) :
    ∀ (m k : Nat), k + m = l.length →
    ∀ acc : Option (List JValue × List JValue),
    (List.range' k m).foldlM
      (fun (_ : Option (List JValue × List JValue)) target => do
        let ba ← seriesBuckets (.num t) (.arr l) target
        pure (some ba))
      acc
    = Except.ok (match m with
        | 0 => acc
        | _ + 1 =>
          some ((belowVals t ((l.get? (l.length - 1)).getD .null)).map JValue.num,
            (aboveVals t ((l.get? (l.length - 1)).getD .null)).map JValue.num)) := by
  intro m
  induction m with
  | zero => intro k hk acc; simp [exceptPure_eq]
  | succ m ih =>
    intro k hk acc
    have hk' : k < l.length := by omega
    obtain ⟨s, hget⟩ : ∃ s, l.get? k = some s := ⟨_, List.get?_eq_get hk'⟩
    have hmem : s ∈ l := List.get?_mem hget
    rw [List.range'_succ, List.foldlM_cons,
      seriesBuckets_wf t l k s hget (hl s hmem), exceptOk_bind, exceptPure_eq,
      exceptOk_bind, ih (k + 1) (by omega)]
    cases m with
    | zero =>
      have hlast : l.length - 1 = k := by omega
      rw [hlast, hget]
      rfl
    | succ m => rfl

/-- Helper: every non-null value lands in exactly one of the two buckets,
so the bucket sizes add up to the number of non-null values. -/
theorem filter_le_add_filter_lt (t : Int) (vals : List Int) :
    (vals.filter (fun n => decide (n ≤ t))).length
      + (vals.filter (fun n => decide (t < n))).length = vals.length := by
  induction vals with
  | nil => rfl
  | cons v vs ih =>
    by_cases h : v ≤ t
    · have h2 : ¬ t < v := not_lt.2 h
      simp [List.filter_cons, h, h2]
      omega
    · have h2 : t < v := not_le.1 h
      simp [List.filter_cons, h, h2]
      omega

/-- C10: on a non-empty response of well-formed series, `count_threshold`
does not produce the sentinel pair: it returns a pair of non-negative
counts summing to the number of non-null samples of the last series (the
series whose buckets survive the loop), and in particular `(0, 0)` — not
`(NO_DATA, NO_DATA)` — when the last series has no non-null sample. -/
theorem claim_C10_nonempty_wf_response_counts :
    ∀ (t : Int) (good : JValue) (l : List JValue) (s : JValue),
    (∀ u ∈ l ++ [s], wellFormedSeries u = true) →
    ∃ g b : Int,
      count_threshold (.arr (l ++ [s])) (.num t) good = .ok (g, b)
      ∧ 0 ≤ g ∧ 0 ≤ b
      ∧ g + b = (seriesVals s).length
      ∧ ((seriesVals s).length = 0 → g = 0 ∧ b = 0) := by
  intro t good l s hwf
  have hloop := whileLoop_fold t (l ++ [s]) hwf (l.length + 1) 0 (by simp)
    (none : Option (List JValue × List JValue))
  have hlast : (l ++ [s]).length - 1 = l.length := by simp
  rw [hlast, List.get?_concat_length] at hloop
  have hbody : count_thresholdBody (.arr (l ++ [s])) (.num t) good
      = Except.ok
        (if pyTruthy good
          then (((belowVals t s).length : Int), ((aboveVals t s).length : Int))
          else (((aboveVals t s).length : Int), ((belowVals t s).length : Int))) := by
    simp only [count_thresholdBody, pyLen, exceptOk_bind, List.length_append,
      List.length_singleton, List.range_eq_range', hloop, Option.getD_some]
    by_cases hg : pyTruthy good = true <;> simp [hg, exceptPure_eq]
  have hsum : (belowVals t s).length + (aboveVals t s).length
      = (seriesVals s).length :=
    filter_le_add_filter_lt t (seriesVals s)
  by_cases hg : pyTruthy good = true
  · refine ⟨((belowVals t s).length : Int), ((aboveVals t s).length : Int),
      ?_, by positivity, by positivity, ?_, ?_⟩
    · simp [count_threshold, hbody, hg]
    · exact_mod_cast hsum
    · intro h0
      have : (belowVals t s).length = 0 ∧ (aboveVals t s).length = 0 := by omega
      exact ⟨by exact_mod_cast this.1, by exact_mod_cast this.2⟩
  · refine ⟨((aboveVals t s).length : Int), ((belowVals t s).length : Int),
      ?_, by positivity, by positivity, ?_, ?_⟩
    · simp [count_threshold, hbody, hg]
    · rw [add_comm]; exact_mod_cast hsum
    · intro h0
      have : (belowVals t s).length = 0 ∧ (aboveVals t s).length = 0 := by omega
      exact ⟨by exact_mod_cast this.2, by exact_mod_cast this.1⟩

/-- Witness for the hypothesis of
`claim_C10_nonempty_wf_response_counts`: a single well-formed series with
one null and one numeric sample. -/
theorem claim_C10_witness :
    (∀ u ∈ ([] ++ [JValue.obj [("datapoints", JValue.arr
        [.arr [.num 3, .num 1612257900], .arr [.null, .num 1612258200]])]]),
      wellFormedSeries u = true)
    ∧ ∃ g b : Int,
      count_threshold (.arr ([] ++ [JValue.obj [("datapoints", JValue.arr
          [.arr [.num 3, .num 1612257900], .arr [.null, .num 1612258200]])]]))
        (.num 50) (.bool true) = .ok (g, b)
      ∧ 0 ≤ g ∧ 0 ≤ b
      ∧ g + b = (seriesVals (JValue.obj [("datapoints", JValue.arr
          [.arr [.num 3, .num 1612257900], .arr [.null, .num 1612258200]])])).length
      ∧ ((seriesVals (JValue.obj [("datapoints", JValue.arr
          [.arr [.num 3, .num 1612257900], .arr [.null, .num 1612258200]])])).length = 0
          → g = 0 ∧ b = 0) :=
  ⟨by decide, claim_C10_nonempty_wf_response_counts 50 (.bool true) []
    (JValue.obj [("datapoints", JValue.arr
      [.arr [.num 3, .num 1612257900], .arr [.null, .num 1612258200]])])
    (by decide)⟩

/-- Helper: the characters produced by `digitChar` are decimal digits. -/
theorem isDigitChar_digitChar (n : Nat) : isDigitChar (digitChar n) = true := by
  have h : n % 10 < 10 := Nat.mod_lt _ (by norm_num)
  have hall : ∀ k, k < 10 → isDigitChar (Char.ofNat (48 + k)) = true := by decide
  exact hall (n % 10) h

/-- Helper: any string assembled from two padded digit pairs, a colon, a
further padded pair, an underscore, a four-digit year and two more padded
pairs matches the documented `HH:MM_YYYYMMDD` pattern. -/
theorem matchesGraphiteTime_pad (h mi y mo d : Nat) :
    matchesGraphiteTime (String.mk (pad2 h ++ [':'] ++ pad2 mi ++ ['_'] ++
      pad4 y ++ pad2 mo ++ pad2 d)) = true := by
  simp only [pad2, pad4, List.cons_append, List.nil_append]
  simp [matchesGraphiteTime, isDigitChar_digitChar]

/-- Helper: on every timestamp below the `datetime` year cap, the
formatter succeeds and its output matches the documented pattern. -/
theorem strftime_ok_matches (t : Nat) (h : t < MAX_TIMESTAMP) :
    ∃ f : String, strftime_HM_YMD t = .ok f ∧ matchesGraphiteTime f = true := by
  unfold strftime_HM_YMD
  rw [if_pos h]
  exact ⟨_, rfl, matchesGraphiteTime_pad _ _ _ _ _⟩

/-- C8: for every pair of (representable) UNIX timestamps, `query`
formats both ends of the window as strings matching the
`HH:MM_YYYYMMDD` pattern, placed in the `from` and `until` request
parameters, and sets `format=json`. -/
theorem claim_C8_query_time_format :
    ∀ s e : Nat, s < MAX_TIMESTAMP → e < MAX_TIMESTAMP →
    ∃ f u : String,
      queryParams s e
        = .ok [("from", some f), ("until", some u), ("format", some "json")]
      ∧ matchesGraphiteTime f = true ∧ matchesGraphiteTime u = true := by
  intro s e hs he
  obtain ⟨f, hf, hfm⟩ := strftime_ok_matches s hs
  obtain ⟨u, hu, hum⟩ := strftime_ok_matches e he
  refine ⟨f, u, ?_, hfm, hum⟩
  simp [queryParams, hf, hu, exceptOk_bind, exceptPure_eq]

/-- Witness for the hypotheses of `claim_C8_query_time_format`, at the
golden timestamps 1612257900 and 1612258200. -/
theorem claim_C8_witness :
    1612257900 < MAX_TIMESTAMP ∧ 1612258200 < MAX_TIMESTAMP
    ∧ ∃ f u : String,
      queryParams 1612257900 1612258200
        = .ok [("from", some f), ("until", some u), ("format", some "json")]
      ∧ matchesGraphiteTime f = true ∧ matchesGraphiteTime u = true :=
  ⟨by decide, by decide,
    claim_C8_query_time_format 1612257900 1612258200 (by decide) (by decide)⟩

/-- Helper: a digit character is not a slash. -/
theorem isDigitChar_ne_slash (c : Char) (h : isDigitChar c = true) :
    (c == '/') = false := by
  cases hb : c == '/'
  · rfl
  · rw [eq_of_beq hb] at h
    exact absurd h (by decide)

/-- Helper: a string matching the `HH:MM_YYYYMMDD` pattern contains no
slash (its characters are digits, a colon and an underscore). -/
theorem matchesGraphiteTime_noSlash (f : String)
    (h : matchesGraphiteTime f = true) :
    ∀ c ∈ f.data, (c == '/') = false := by
  unfold matchesGraphiteTime at h
  intro c hc
  revert h hc
  generalize f.data = L
  intro h hc
  rcases L with _ | ⟨a1, _ | ⟨a2, _ | ⟨a3, _ | ⟨a4, _ | ⟨a5, _ | ⟨a6,
    _ | ⟨a7, _ | ⟨a8, _ | ⟨a9, _ | ⟨a10, _ | ⟨a11, _ | ⟨a12,
    _ | ⟨a13, _ | ⟨a14, _ | ⟨a15, L⟩⟩⟩⟩⟩⟩⟩⟩⟩⟩⟩⟩⟩⟩⟩
  all_goals try exact Bool.noConfusion h
  simp only [Bool.and_eq_true, and_assoc] at h
  obtain ⟨h1, h2, h3, h4, h5, h6, h7, h8, h9, h10, h11, h12, h13, h14⟩ := h
  simp only [List.mem_cons, List.not_mem_nil, or_false] at hc
  rcases hc with rfl | rfl | rfl | rfl | rfl | rfl | rfl | rfl | rfl | rfl |
    rfl | rfl | rfl | rfl
  · exact isDigitChar_ne_slash _ h1
  · exact isDigitChar_ne_slash _ h2
  · rw [eq_of_beq h3]; decide
  · exact isDigitChar_ne_slash _ h4
  · exact isDigitChar_ne_slash _ h5
  · rw [eq_of_beq h6]; decide
  · exact isDigitChar_ne_slash _ h7
  · exact isDigitChar_ne_slash _ h8
  · exact isDigitChar_ne_slash _ h9
  · exact isDigitChar_ne_slash _ h10
  · exact isDigitChar_ne_slash _ h11
  · exact isDigitChar_ne_slash _ h12
  · exact isDigitChar_ne_slash _ h13
  · exact isDigitChar_ne_slash _ h14

/-- Helper: a character sequence with no slash has no double slash. -/
theorem hasDoubleSlash_eq_false (l : List Char)
    (h : ∀ c ∈ l, (c == '/') = false) : hasDoubleSlash l = false := by
  induction l with
  | nil => rfl
  | cons c l ih =>
    cases l with
    | nil => rfl
    | cons d l' =>
      have hc : (c == '/') = false := h c (by simp)
      have hrest : ∀ x ∈ d :: l', (x == '/') = false :=
        fun x hx => h x (by simp [hx])
      simp [hasDoubleSlash, hc, ih hrest]

/-- Helper: appending a slash-free tail does not create a double slash. -/
theorem hasDoubleSlash_append (l r : List Char)
    (h : ∀ c ∈ r, (c == '/') = false) :
    hasDoubleSlash (l ++ r) = hasDoubleSlash l := by
  induction l with
  | nil => simp [hasDoubleSlash_eq_false r h, hasDoubleSlash]
  | cons c l ih =>
    cases l with
    | nil =>
      cases r with
      | nil => simp
      | cons d r' =>
        have hd : (d == '/') = false := h d (by simp)
        have hrest : hasDoubleSlash (d :: r') = false :=
          hasDoubleSlash_eq_false _ h
        simp [hasDoubleSlash, hd, hrest]
    | cons d l' =>
      simp only [List.cons_append, hasDoubleSlash, List.append_eq]
      congr 1

/-- C9: for `api_url = "http://g/"` and `metric = "a.b.c"`, the URL the
client builds (for any representable time window) has no double slash
after the `http://` scheme — the trailing slash of `api_url` is stripped
before the path is appended — and contains the substring
`target=a.b.c`. -/
theorem claim_C9_url_no_double_slash :
    ∀ s e : Nat, s < MAX_TIMESTAMP → e < MAX_TIMESTAMP →
    ∃ url : String, queryUrl "http://g/" "a.b.c" s e = .ok url
      ∧ (∃ rest : List Char, url.data = "http://".data ++ rest
          ∧ hasDoubleSlash rest = false)
      ∧ List.IsInfix ("target=a.b.c").data url.data := by
  intro s e hs he
  obtain ⟨f, hf, hfm⟩ := strftime_ok_matches s hs
  obtain ⟨u, hu, hum⟩ := strftime_ok_matches e he
  have hr : rstripSlash "http://g/" = "http://g" := by decide
  refine ⟨request_url (rstripSlash "http://g/") "render?target" "a.b.c"
      [("from", some f), ("until", some u), ("format", some "json")],
    ?_, ?_, ?_⟩
  · simp [queryUrl, queryParams, hf, hu, exceptOk_bind, exceptPure_eq]
  · refine ⟨"g/render?target=a.b.c&from=".data ++ (f.data ++
      ("&until=".data ++ (u.data ++ "&format=json".data))), ?_, ?_⟩
    · simp [request_url, hr, joinAmp]
    · have htail : ∀ c ∈ f.data ++ ("&until=".data ++
          (u.data ++ "&format=json".data)), (c == '/') = false := by
        intro c hc
        rcases List.mem_append.1 hc with h1 | hc
        · exact matchesGraphiteTime_noSlash f hfm c h1
        rcases List.mem_append.1 hc with h1 | hc
        · exact (by decide : ∀ x ∈ ("&until=").data, (x == '/') = false) c h1
        rcases List.mem_append.1 hc with h1 | h1
        · exact matchesGraphiteTime_noSlash u hum c h1
        · exact (by decide : ∀ x ∈ ("&format=json").data, (x == '/') = false) c h1
      rw [hasDoubleSlash_append _ _ htail]
      decide
  · exact ⟨"http://g/render?".data,
      "&from=".data ++ (f.data ++ ("&until=".data ++
        (u.data ++ "&format=json".data))),
      by simp [request_url, hr, joinAmp]⟩

/-- Witness for the hypotheses of `claim_C9_url_no_double_slash`, at the
golden timestamps 1612257900 and 1612258200. -/
theorem claim_C9_witness :
    1612257900 < MAX_TIMESTAMP ∧ 1612258200 < MAX_TIMESTAMP
    ∧ ∃ url : String,
      queryUrl "http://g/" "a.b.c" 1612257900 1612258200 = .ok url
      ∧ (∃ rest : List Char, url.data = "http://".data ++ rest
          ∧ hasDoubleSlash rest = false)
      ∧ List.IsInfix ("target=a.b.c").data url.data :=
  ⟨by decide, by decide,
    claim_C9_url_no_double_slash 1612257900 1612258200 (by decide) (by decide)⟩

/-- Witness for the hypothesis of
`claim_C6_count_sentinel_on_structural_failure`: the empty dict has no
`'result'` key and `count` maps it to the sentinel. -/
theorem claim_C6_count_sentinel_witness :
    ([] : List (String × JValue)).lookup "result" = none
    ∧ count (.obj []) = .ok NO_DATA :=
  ⟨rfl, claim_C6_count_sentinel_on_structural_failure.1 [] rfl⟩
